import Mathlib

/-!
Verification of the save-queue delivery subsystem of a text-capture browser
extension. The definitions below shallowly embed the background service
worker (`src/extension/background/service-worker.ts`) and its configuration
(`shared/types.ts`). The durable queue store (`shared/storage.ts`) is not
part of the provided sources; its operations are modelled from the spec
(section 4.2) and each such definition says so in its doc comment.

State effects are made explicit: the system state carries the persisted
queue, the worker's in-flight id set, and append-only event traces for
published broadcasts, scheduled retry timers, awaited sleeps, and started
delivery attempts.
-/

namespace Kola

/-! ## Configuration (CONFIG in shared/types.ts) -/

/-- CONFIG.MAX_RETRIES. -/
def MAX_RETRIES : Nat := 3

/-- CONFIG.INITIAL_RETRY_DELAY_MS. -/
def INITIAL_RETRY_DELAY_MS : Nat := 1000

/-- CONFIG.MAX_RETRY_DELAY_MS. -/
def MAX_RETRY_DELAY_MS : Nat := 30000

/-- CONFIG.MAX_QUEUE_SIZE. -/
def MAX_QUEUE_SIZE : Nat := 100

/-- CONFIG.MIN_SELECTION_LENGTH. -/
def MIN_SELECTION_LENGTH : Nat := 10

/-- CONFIG.MAX_SELECTION_LENGTH. -/
def MAX_SELECTION_LENGTH : Nat := 10000

/-! ## Data model (shared/types.ts) -/

/-- Status of a queue entry (`QueueItem.status` in shared/types.ts). -/
inductive Status where
  | pending
  | saving
  | failed
deriving DecidableEq

/-- Captured content (`SaveSnippetRequest.payload`). -/
structure Payload where
  text : String
  sourceUrl : String
  sourceTitle : String
  sourceDomain : String
  selectionContext : Option String
deriving DecidableEq

/-- A persisted queue entry (`QueueItem` in shared/types.ts). Ids are
modelled as naturals. -/
structure QueueItem where
  id : Nat
  createdAt : Nat
  retryCount : Nat
  lastError : Option String
  status : Status
  payload : Payload
deriving DecidableEq

/-- One rendered entry of the popup state summary
(`StateUpdateMessage.payload.recentSaves` element). -/
structure RecentSave where
  id : Nat
  text : String
  sourceDomain : String
  status : Status
deriving DecidableEq

/-- Payload of a `STATE_UPDATE` broadcast. -/
structure SyncSnapshot where
  pendingCount : Nat
  recentSaves : List RecentSave
deriving DecidableEq

/-- A message published through `broadcastMessage` (service-worker.ts):
either a `SAVE_RESULT` or a `STATE_UPDATE`. -/
inductive BroadcastMsg where
  | saveResult (success : Bool) (snippetId : Option String) (err : Option String)
      (originalText : String) (queueId : Nat)
  | stateUpdate (payload : SyncSnapshot)
deriving DecidableEq

/-- The observable state of the background worker: the persisted queue, the
`processingIds` set, and append-only traces of published broadcasts,
`setTimeout`-scheduled retry timers `(delayMs, queueId)`, awaited sleeps
(startup stagger), started delivery attempts, plus the fresh-id source and
the duplicate-filter recency table `(text, sourceUrl, recordedAt)`. -/
structure SystemState where
  queue : List QueueItem
  processing : List Nat
  broadcasts : List BroadcastMsg
  timers : List (Nat × Nat)
  waits : List Nat
  attemptLog : List Nat
  nextId : Nat
  recent : List (String × String × Nat)
deriving DecidableEq

/-! ## String containment (JS `String.prototype.includes`) -/

/-- Boolean test that `pat` is an initial segment of `hay`. -/
def listStarts : List Char → List Char → Bool
  | _, [] => true
  | [], _ :: _ => false
  | c :: cs, p :: ps => c == p && listStarts cs ps

/-- Boolean test that `pat` occurs contiguously inside the second list. -/
def listHasSub (pat : List Char) : List Char → Bool
  | [] => listStarts [] pat
  | c :: cs => listStarts (c :: cs) pat || listHasSub pat cs

/-- Embedding of `s.includes(pat)` on JS strings. -/
def strIncludes (s pat : String) : Bool :=
  listHasSub pat.data s.data

/-! ## Remote write outcomes -/

/-- A thrown JS `Error` value, as observed by `isRetryableError`: its `name`
and `message`. -/
structure JsError where
  name : String
  message : String
deriving DecidableEq

/-- How the body of a non-ok HTTP response reads as an error object after
`response.json().catch(() => ({ error: "Unknown error" }))`:
the body may be unparseable JSON, may parse without an `error` field, or
may carry an `error` string. -/
inductive ErrorBody where
  | unparseable
  | noField
  | field (msg : String)
deriving DecidableEq

/-- An HTTP response from the remote store: its status, how its body reads
as an error object, and how it reads as a created snippet (`id` field,
used only on the ok path). -/
structure RemoteResponse where
  status : Nat
  errBody : ErrorBody
  snippetId : String
deriving DecidableEq

/-- Resolution of one `fetchWithRetry` call: an HTTP response, a rejected
fetch (connection error), or the 30-second per-attempt timer firing and
aborting the request (the abort makes fetch reject with an `AbortError`). -/
inductive FetchResult where
  | resp (r : RemoteResponse)
  | netError (e : JsError)
  | aborted
deriving DecidableEq

/-- JS `Response.ok`: status in the range 200 to 299. -/
def responseOk (r : RemoteResponse) : Bool :=
  decide (200 ≤ r.status ∧ r.status < 300)

/-- Message of the error thrown for a non-ok response (service-worker.ts
lines 138-141): the parsed body's `error` field when present and truthy,
otherwise the fallback text with the HTTP status; an unparseable body is
replaced by an object with error "Unknown error". -/
def errMessageOfResponse (r : RemoteResponse) : String :=
  match r.errBody with
  | .unparseable => "Unknown error"
  | .noField => "HTTP " ++ toString r.status
  | .field msg => if msg = "" then "HTTP " ++ toString r.status else msg

/-- The JS error produced when the fetch result is not a success, if any
(service-worker.ts lines 138-141 and fetch rejection). -/
def thrownError : FetchResult → Option JsError
  | .resp r => if responseOk r then none else some ⟨"Error", errMessageOfResponse r⟩
  | .netError e => some e
  | .aborted => some ⟨"AbortError", "The operation was aborted"⟩

/-- `isRetryableError` (service-worker.ts lines 244-256): retryable when
the error is named `AbortError`, or its message contains "network", or its
message contains "HTTP 5". -/
def isRetryableError (e : JsError) : Bool :=
  decide (e.name = "AbortError") || strIncludes e.message "network"
    || strIncludes e.message "HTTP 5"

/-- `delay` computed in `processQueueItem` before scheduling a retry:
exponential backoff from the attempt's retry count, capped. -/
def retryDelay (rc : Nat) : Nat :=
  min (INITIAL_RETRY_DELAY_MS * 2 ^ rc) MAX_RETRY_DELAY_MS

/-! ## Durable queue store (modelled from the spec) -/

/-- Modelled from the spec: `shared/storage.ts` is not among the provided
sources. Section 4.2 `enqueue(payload)` creates and persists a new entry
with status pending and retryCount 0, and fails with `CapacityExceeded`
if the store already holds the configured maximum number of entries. -/
def enqueue (p : Payload) (now : Nat) (s : SystemState) :
    Except String (QueueItem × SystemState) :=
  if MAX_QUEUE_SIZE ≤ s.queue.length then .error "CapacityExceeded"
  else
    let item : QueueItem := ⟨s.nextId, now, 0, none, .pending, p⟩
    .ok (item, { s with queue := s.queue ++ [item], nextId := s.nextId + 1 })

/-- Modelled from the spec: section 4.2 `dequeueRemove(id)` permanently
removes an entry; no-op if absent. -/
def dequeue (id : Nat) (s : SystemState) : SystemState :=
  { s with queue := s.queue.filter (fun q => decide (q.id ≠ id)) }

/-- Modelled from the spec: section 4.2 `updateStatus(id, status, lastError?)`
mutates the named entry in place and is a no-op if the id no longer exists;
an absent error argument leaves `lastError` unchanged. Per section 4.3 a
retryable failure performs `retryCount += 1` while returning the entry to
pending — the worker issues that transition only through this call, passing
status pending together with the failure message, so the increment lives
here: setting status to pending with an error present bumps `retryCount`. -/
def updateItemStatus (id : Nat) (st : Status) (err : Option String)
    (s : SystemState) : SystemState :=
  { s with queue := s.queue.map (fun q =>
      if q.id = id then
        { q with
          status := st
          lastError := match err with | some m => some m | none => q.lastError
          retryCount :=
            if st = .pending ∧ err.isSome then q.retryCount + 1 else q.retryCount }
      else q) }

/-- Modelled from the spec: section 4.2 `listPending()` returns the
subsequence of entries whose status is pending or failed (eligible for
retry), in insertion order. -/
def getPendingItems (s : SystemState) : List QueueItem :=
  s.queue.filter (fun q => decide (q.status = .pending ∨ q.status = .failed))

/-- Modelled from the spec: section 4.1 — the duplicate filter compares the
capture against `(text, source)` pairs recorded within a recency window.
The window width is a configuration constant; no claim depends on its
value. -/
def DUP_WINDOW_MS : Nat := 60000

/-- Modelled from the spec: section 4.1 duplicate check — true when the
same `(text, sourceUrl)` pair was recorded within the recency window. -/
def isDuplicate (text url : String) (now : Nat) (s : SystemState) : Bool :=
  s.recent.any (fun r =>
    decide (r.1 = text) && decide (r.2.1 = url) && decide (now - r.2.2 ≤ DUP_WINDOW_MS))

/-- Modelled from the spec: section 4.1 — on allow, the filter records the
new `(text, source)` pair with the current timestamp. -/
def recordRecent (text url : String) (now : Nat) (s : SystemState) : SystemState :=
  { s with recent := (text, url, now) :: s.recent }

/-! ## Worker operations (service-worker.ts) -/

/-- `broadcastMessage` (lines 259-263): best-effort fan-out, modelled as
appending to the broadcast trace. -/
def broadcastMessage (m : BroadcastMsg) (s : SystemState) : SystemState :=
  { s with broadcasts := s.broadcasts ++ [m] }

/-- `handleSyncState` (lines 266-278) as a function of the persisted queue:
pendingCount counts entries whose status is pending or saving; recentSaves
renders `queue.slice(-10)`, truncating each text to its first 100
characters and reporting a saving status as pending. -/
def handleSyncState (queue : List QueueItem) : SyncSnapshot :=
  { pendingCount :=
      (queue.filter (fun q => decide (q.status = .pending ∨ q.status = .saving))).length
    recentSaves :=
      (queue.drop (queue.length - 10)).map (fun item =>
        { id := item.id
          text := item.payload.text.take 100
          sourceDomain := item.payload.sourceDomain
          status := if item.status = .saving then .pending else item.status }) }

/-- Catch block of `processQueueItem` (lines 168-207): a retryable failure
within the retry budget returns the entry to pending (the store bumps its
retry count) and schedules a backoff timer computed from the attempt's
snapshot `item.retryCount`; otherwise the entry is marked failed and a
failure result plus a state update are broadcast. -/
def failurePath (item : QueueItem) (e : JsError) (s : SystemState) : SystemState :=
  if item.retryCount < MAX_RETRIES ∧ isRetryableError e = true then
    let s1 := updateItemStatus item.id .pending (some e.message) s
    { s1 with timers := s1.timers ++ [(retryDelay item.retryCount, item.id)] }
  else
    let s1 := updateItemStatus item.id .failed (some e.message) s
    let s2 := broadcastMessage
      (.saveResult false none (some e.message) item.payload.text item.id) s1
    broadcastMessage (.stateUpdate (handleSyncState s2.queue)) s2

/-- `processQueueItem` (lines 114-211): skip when the id is already in
`processingIds`; otherwise record the id as in-flight (and log the started
attempt), mark the entry saving, resolve the fetch, and on success dequeue
the entry and broadcast a success result plus a state update, on failure
take `failurePath`; finally release the id. The fetch resolution is passed
in as `fr`, making the remote store an explicit parameter. -/
def processQueueItem (item : QueueItem) (fr : FetchResult) (s : SystemState) :
    SystemState :=
  if item.id ∈ s.processing then s
  else
    let s1 := { s with
      processing := item.id :: s.processing
      attemptLog := s.attemptLog ++ [item.id] }
    let s2 := updateItemStatus item.id .saving none s1
    let s3 :=
      match fr with
      | .resp r =>
        if responseOk r then
          let s4 := dequeue item.id s2
          let s5 := broadcastMessage
            (.saveResult true (some r.snippetId) none item.payload.text item.id) s4
          broadcastMessage (.stateUpdate (handleSyncState s5.queue)) s5
        else failurePath item ⟨"Error", errMessageOfResponse r⟩ s2
      | .netError e => failurePath item e s2
      | .aborted => failurePath item ⟨"AbortError", "The operation was aborted"⟩ s2
    { s3 with processing := s3.processing.erase item.id }

/-- `retryQueueItem` (lines 214-221): look the id up in the current queue
and process it only when it is still present with status pending or failed. -/
def retryQueueItem (queueId : Nat) (fr : FetchResult) (s : SystemState) : SystemState :=
  match s.queue.find? (fun q => decide (q.id = queueId)) with
  | some item =>
      if item.status = .pending ∨ item.status = .failed then processQueueItem item fr s
      else s
  | none => s

/-- Possible synchronous outcomes of `handleSaveSnippet`: an accepted
capture (status pending with a queue id), a validation rejection (status
error), or a thrown store error surfaced through the message listener's
catch. -/
inductive SubmitOutcome where
  | accepted (queueId : Nat)
  | rejected (msg : String)
  | thrown (msg : String)
deriving DecidableEq

/-- Result of one `handleSaveSnippet` call: its response, the entry it
enqueued (if any, handed to the asynchronous `processQueueItem` call), and
the state after the synchronous part. -/
structure SubmitStep where
  outcome : SubmitOutcome
  enqueued : Option QueueItem
  state : SystemState
deriving DecidableEq

/-- `handleSaveSnippet` (lines 82-111): reject captures below the minimum
or above the maximum length, reject recent duplicates (recording the pair
on allow, per the spec's duplicate filter), then enqueue. The immediate
`processQueueItem` call is fired without awaiting; it is modelled as a
separate step applied to the returned entry. An empty text is subsumed by
the minimum-length test. -/
def handleSaveSnippet (p : Payload) (now : Nat) (s : SystemState) : SubmitStep :=
  if p.text.length < MIN_SELECTION_LENGTH then
    ⟨.rejected "Selection too short (minimum 10 characters)", none, s⟩
  else if MAX_SELECTION_LENGTH < p.text.length then
    ⟨.rejected "Selection too long (maximum 10,000 characters)", none, s⟩
  else if isDuplicate p.text p.sourceUrl now s = true then
    ⟨.rejected "This snippet was already saved recently", none, s⟩
  else
    let s1 := recordRecent p.text p.sourceUrl now s
    match enqueue p now s1 with
    | .error msg => ⟨.thrown msg, none, s1⟩
    | .ok (item, s2) => ⟨.accepted item.id, some item, s2⟩

/-- Startup recovery loop body (`processPendingOnStartup`, lines 281-289):
await a 500ms stagger, then process the snapshot entry; the fetch
resolution of each attempt is indexed by entry id. -/
def startupLoop (f : Nat → FetchResult) : List QueueItem → SystemState → SystemState
  | [], s => s
  | item :: rest, s =>
      let s1 := { s with waits := s.waits ++ [500] }
      startupLoop f rest (processQueueItem item (f item.id) s1)

/-- `processPendingOnStartup` (lines 281-289): read the pending/failed
snapshot once, then process each snapshot entry in order with a stagger. -/
def processPendingOnStartup (f : Nat → FetchResult) (s : SystemState) : SystemState :=
  startupLoop f (getPendingItems s) s

/-! ## Concrete states and broadcast predicates used by the theorems -/

/-- A fresh worker state: empty store, no in-flight ids, empty traces. -/
def emptyState : SystemState := ⟨[], [], [], [], [], [], 1, []⟩

/-- The spec's scenario capture: a 25-character text from example.com. -/
def samplePayload : Payload :=
  ⟨"The quick brown fox jumps", "https://example.com/a", "Example", "example.com", none⟩

/-- A 500 response whose body has no `error` field: the thrown message is
the fallback "HTTP 500". -/
def resp500 : FetchResult := .resp ⟨500, .noField, ""⟩

/-- A 404 response with no error body: thrown message "HTTP 404". -/
def resp404 : FetchResult := .resp ⟨404, .noField, ""⟩

/-- A one-entry store holding a fresh pending entry, nothing in flight. -/
def freshItemState : SystemState :=
  { emptyState with queue := [⟨1, 0, 0, none, .pending, samplePayload⟩], nextId := 2 }

/-- A store filled to capacity with distinct pending entries. -/
def fullState : SystemState :=
  { emptyState with
    queue := (List.range MAX_QUEUE_SIZE).map
      (fun i => ⟨i + 10, 0, 0, none, .pending, samplePayload⟩)
    nextId := 200 }

/-- The entry enqueued by submitting `samplePayload` to the fresh state. -/
def c3item : QueueItem := ⟨1, 0, 0, none, .pending, samplePayload⟩

/-- State after the submit. -/
def c3s1 : SystemState := (handleSaveSnippet samplePayload 0 emptyState).state

/-- State after the immediate first attempt answers 500. -/
def c3s2 : SystemState := processQueueItem c3item resp500 c3s1

/-- States after each backoff timer fires and the retry answers 500 again. -/
def c3s3 : SystemState := retryQueueItem 1 resp500 c3s2

/-- Second retry, again answered 500. -/
def c3s4 : SystemState := retryQueueItem 1 resp500 c3s3

/-- Third retry, again answered 500: the budget is exhausted. -/
def c3s5 : SystemState := retryQueueItem 1 resp500 c3s4

/-- A store left from a prior session: one pending and one failed entry. -/
def c9state : SystemState :=
  { emptyState with
    queue := [⟨1, 0, 0, none, .pending, samplePayload⟩,
              ⟨2, 0, 3, some "HTTP 500", .failed, samplePayload⟩]
    nextId := 3 }

/-- Predicate: the message is a `SAVE_RESULT` (of either polarity) for the
given queue id. -/
def isResultBroadcastFor (qid : Nat) : BroadcastMsg → Bool
  | .saveResult _ _ _ _ q => decide (q = qid)
  | .stateUpdate _ => false

/-- Predicate: the message is a success `SAVE_RESULT` for the given queue id. -/
def isSuccessBroadcastFor (qid : Nat) : BroadcastMsg → Bool
  | .saveResult true _ _ _ q => decide (q = qid)
  | _ => false

/-! ## Helper lemmas: field preservation of the state operations -/

@[simp]
lemma updateItemStatus_processing (id st err s) :
    (updateItemStatus id st err s).processing = s.processing := rfl

@[simp]
lemma updateItemStatus_broadcasts (id st err s) :
    (updateItemStatus id st err s).broadcasts = s.broadcasts := rfl

@[simp]
lemma updateItemStatus_timers (id st err s) :
    (updateItemStatus id st err s).timers = s.timers := rfl

@[simp]
lemma updateItemStatus_attemptLog (id st err s) :
    (updateItemStatus id st err s).attemptLog = s.attemptLog := rfl

@[simp]
lemma updateItemStatus_waits (id st err s) :
    (updateItemStatus id st err s).waits = s.waits := rfl

@[simp]
lemma dequeue_processing (id s) : (dequeue id s).processing = s.processing := rfl

@[simp]
lemma dequeue_attemptLog (id s) : (dequeue id s).attemptLog = s.attemptLog := rfl

@[simp]
lemma dequeue_waits (id s) : (dequeue id s).waits = s.waits := rfl

@[simp]
lemma broadcastMessage_processing (m s) :
    (broadcastMessage m s).processing = s.processing := rfl

@[simp]
lemma broadcastMessage_queue (m s) : (broadcastMessage m s).queue = s.queue := rfl

@[simp]
lemma broadcastMessage_attemptLog (m s) :
    (broadcastMessage m s).attemptLog = s.attemptLog := rfl

@[simp]
lemma broadcastMessage_waits (m s) : (broadcastMessage m s).waits = s.waits := rfl

@[simp]
lemma failurePath_processing (item e s) :
    (failurePath item e s).processing = s.processing := by
  unfold failurePath
  split
  · simp
  · simp

@[simp]
lemma failurePath_attemptLog (item e s) :
    (failurePath item e s).attemptLog = s.attemptLog := by
  unfold failurePath
  split
  · simp
  · simp

@[simp]
lemma failurePath_waits (item e s) :
    (failurePath item e s).waits = s.waits := by
  unfold failurePath
  split
  · simp
  · simp

/-- The concurrency guard of `processQueueItem`: a trigger for an id already
in the in-flight set is skipped with no state change. -/
lemma processQueueItem_skip (item : QueueItem) (fr : FetchResult) (s : SystemState)
    (h : item.id ∈ s.processing) : processQueueItem item fr s = s := by
  unfold processQueueItem
  rw [if_pos h]

set_option linter.unnecessarySeqFocus false in
/-- `processQueueItem` restores the in-flight set on completion. -/
lemma processQueueItem_processing (item : QueueItem) (fr : FetchResult)
    (s : SystemState) : (processQueueItem item fr s).processing = s.processing := by
  unfold processQueueItem
  split
  · rfl
  · cases fr <;> simp <;> split <;> simp

set_option linter.unnecessarySeqFocus false in
/-- A started attempt logs its id exactly once. -/
lemma processQueueItem_attemptLog (item : QueueItem) (fr : FetchResult)
    (s : SystemState) (h : item.id ∉ s.processing) :
    (processQueueItem item fr s).attemptLog = s.attemptLog ++ [item.id] := by
  unfold processQueueItem
  rw [if_neg h]
  cases fr <;> simp <;> split <;> simp

set_option linter.unnecessarySeqFocus false in
/-- `processQueueItem` never performs an awaited sleep. -/
lemma processQueueItem_waits (item : QueueItem) (fr : FetchResult)
    (s : SystemState) : (processQueueItem item fr s).waits = s.waits := by
  unfold processQueueItem
  split
  · rfl
  · cases fr <;> simp <;> split <;> simp

/-! ## Characterization of one attempt, per outcome -/

/-- additional field-preservation lemmas -/
@[simp]
lemma broadcastMessage_timers (m s) : (broadcastMessage m s).timers = s.timers := rfl

@[simp]
lemma dequeue_timers (id s) : (dequeue id s).timers = s.timers := rfl

@[simp]
lemma dequeue_broadcasts (id s) : (dequeue id s).broadcasts = s.broadcasts := rfl

@[simp]
lemma recordRecent_queue (t u now s) : (recordRecent t u now s).queue = s.queue := rfl

/-- An attempt whose fetch resolves to a successful response: the entry is
removed and a success result plus a summary are broadcast. -/
lemma processQueueItem_success (item : QueueItem) (r : RemoteResponse)
    (s : SystemState) (hproc : item.id ∉ s.processing) (hok : responseOk r = true) :
    processQueueItem item (.resp r) s =
      (let s1 := { s with processing := item.id :: s.processing,
                          attemptLog := s.attemptLog ++ [item.id] }
       let s2 := updateItemStatus item.id .saving none s1
       let s3 := dequeue item.id s2
       let s4 := broadcastMessage
         (.saveResult true (some r.snippetId) none item.payload.text item.id) s3
       let s5 := broadcastMessage (.stateUpdate (handleSyncState s4.queue)) s4
       { s5 with processing := s5.processing.erase item.id }) := by
  unfold processQueueItem
  rw [if_neg hproc]
  simp only [hok, if_true]

/-- An attempt whose fetch throws a retryable error within the retry
budget: the entry returns to pending with its retry count bumped and a
backoff timer is recorded; nothing is broadcast. -/
lemma processQueueItem_retryable (item : QueueItem) (fr : FetchResult)
    (e : JsError) (s : SystemState) (hproc : item.id ∉ s.processing)
    (he : thrownError fr = some e)
    (hretry : item.retryCount < MAX_RETRIES ∧ isRetryableError e = true) :
    processQueueItem item fr s =
      (let s1 := { s with processing := item.id :: s.processing,
                          attemptLog := s.attemptLog ++ [item.id] }
       let s2 := updateItemStatus item.id .saving none s1
       let s3 := updateItemStatus item.id .pending (some e.message) s2
       let s4 := { s3 with timers := s3.timers ++ [(retryDelay item.retryCount, item.id)] }
       { s4 with processing := s4.processing.erase item.id }) := by
  unfold processQueueItem failurePath
  rw [if_neg hproc]
  cases fr with
  | resp r =>
      have hok : responseOk r = false := by
        cases hr : responseOk r
        · rfl
        · simp [thrownError, hr] at he
      simp only [thrownError, hok, Bool.false_eq_true, if_false, Option.some.injEq] at he
      subst he
      simp only [hok, Bool.false_eq_true, if_false, if_pos hretry]
  | netError e2 =>
      simp only [thrownError, Option.some.injEq] at he
      subst he
      simp only [if_pos hretry]
  | aborted =>
      simp only [thrownError, Option.some.injEq] at he
      subst he
      simp only [if_pos hretry]

/-- An attempt whose fetch throws a non-retryable error, or that has
exhausted its retry budget: the entry is marked failed and a failure result
plus a summary are broadcast; no timer is scheduled. -/
lemma processQueueItem_terminal (item : QueueItem) (fr : FetchResult)
    (e : JsError) (s : SystemState) (hproc : item.id ∉ s.processing)
    (he : thrownError fr = some e)
    (hterm : ¬ (item.retryCount < MAX_RETRIES ∧ isRetryableError e = true)) :
    processQueueItem item fr s =
      (let s1 := { s with processing := item.id :: s.processing,
                          attemptLog := s.attemptLog ++ [item.id] }
       let s2 := updateItemStatus item.id .saving none s1
       let s3 := updateItemStatus item.id .failed (some e.message) s2
       let s4 := broadcastMessage
         (.saveResult false none (some e.message) item.payload.text item.id) s3
       let s5 := broadcastMessage (.stateUpdate (handleSyncState s4.queue)) s4
       { s5 with processing := s5.processing.erase item.id }) := by
  unfold processQueueItem failurePath
  rw [if_neg hproc]
  cases fr with
  | resp r =>
      have hok : responseOk r = false := by
        cases hr : responseOk r
        · rfl
        · simp [thrownError, hr] at he
      simp only [thrownError, hok, Bool.false_eq_true, if_false, Option.some.injEq] at he
      subst he
      simp only [hok, Bool.false_eq_true, if_false, if_neg hterm]
  | netError e2 =>
      simp only [thrownError, Option.some.injEq] at he
      subst he
      simp only [if_neg hterm]
  | aborted =>
      simp only [thrownError, Option.some.injEq] at he
      subst he
      simp only [if_neg hterm]

/-- Marking an entry saving and then failed amounts to one pointwise queue
update: status failed, last error recorded, retry count untouched. -/
lemma queue_saving_then_failed (id : Nat) (msg : String) (s : SystemState) :
    (updateItemStatus id .failed (some msg) (updateItemStatus id .saving none s)).queue
      = s.queue.map (fun q =>
          if q.id = id then { q with status := .failed, lastError := some msg } else q) := by
  unfold updateItemStatus
  simp only [List.map_map]
  induction s.queue with
  | nil => rfl
  | cons q l ih =>
      simp only [List.map_cons, ih, Function.comp_apply]
      by_cases hq : q.id = id <;> simp [hq]

/-- Marking an entry saving and then pending-with-error amounts to one
pointwise queue update: status pending, last error recorded, retry count
bumped by one. -/
lemma queue_saving_then_pending (id : Nat) (msg : String) (s : SystemState) :
    (updateItemStatus id .pending (some msg) (updateItemStatus id .saving none s)).queue
      = s.queue.map (fun q =>
          if q.id = id then
            { q with status := .pending, lastError := some msg,
                     retryCount := q.retryCount + 1 }
          else q) := by
  unfold updateItemStatus
  simp only [List.map_map]
  induction s.queue with
  | nil => rfl
  | cons q l ih =>
      simp only [List.map_cons, ih, Function.comp_apply]
      by_cases hq : q.id = id <;> simp [hq]

/-- A valid, non-duplicate submit over a store with free capacity enqueues
a fresh pending entry and reports it accepted. -/
lemma handleSaveSnippet_valid (p : Payload) (now : Nat) (s : SystemState)
    (hmin : MIN_SELECTION_LENGTH ≤ p.text.length)
    (hmax : p.text.length ≤ MAX_SELECTION_LENGTH)
    (hdup : isDuplicate p.text p.sourceUrl now s = false)
    (hcap : s.queue.length < MAX_QUEUE_SIZE) :
    handleSaveSnippet p now s =
      ⟨.accepted s.nextId, some ⟨s.nextId, now, 0, none, .pending, p⟩,
       { s with recent := (p.text, p.sourceUrl, now) :: s.recent,
                queue := s.queue ++ [⟨s.nextId, now, 0, none, .pending, p⟩],
                nextId := s.nextId + 1 }⟩ := by
  unfold handleSaveSnippet
  rw [if_neg (Nat.not_lt.mpr hmin), if_neg (Nat.not_lt.mpr hmax),
    if_neg (by simp [hdup])]
  unfold enqueue
  simp only [recordRecent_queue]
  rw [if_neg (Nat.not_le.mpr hcap)]
  rfl

/-- Trace of the startup loop from a quiescent worker: one attempt is
logged per snapshot entry, in order, with one 500ms stagger each, and the
in-flight set ends empty. -/
lemma startupLoop_trace (f : Nat → FetchResult) :
    ∀ (l : List QueueItem) (s : SystemState), s.processing = [] →
      (startupLoop f l s).attemptLog = s.attemptLog ++ l.map (fun q => q.id) ∧
      (startupLoop f l s).waits = s.waits ++ List.replicate l.length 500 ∧
      (startupLoop f l s).processing = [] := by
  intro l
  induction l with
  | nil =>
      intro s hs
      simp [startupLoop, hs]
  | cons item rest ih =>
      intro s hs
      unfold startupLoop
      have hs1 : ({ s with waits := s.waits ++ [500] } : SystemState).processing = [] := hs
      have hnot : item.id ∉ ({ s with waits := s.waits ++ [500] } : SystemState).processing := by
        rw [hs1]
        simp
      have hp2 : (processQueueItem item (f item.id)
          { s with waits := s.waits ++ [500] }).processing = [] := by
        rw [processQueueItem_processing]
        exact hs1
      obtain ⟨ha, hw, hp⟩ := ih (processQueueItem item (f item.id)
        { s with waits := s.waits ++ [500] }) hp2
      refine ⟨?_, ?_, hp⟩
      · rw [ha, processQueueItem_attemptLog _ _ _ hnot]
        simp
      · rw [hw, processQueueItem_waits]
        simp [List.replicate_succ]

/-! ## The claims -/

/-- Claim C1: a valid capture within the size bounds is accepted with a
fresh queue id; when the worker's attempt resolves to a successful remote
write, the entry is absent from the persisted queue afterwards and exactly
one success broadcast carrying that queue id has been published. -/
theorem submit_then_success_removes_and_broadcasts_once
    (p : Payload) (now : Nat) (s : SystemState) (r : RemoteResponse)
    (hmin : MIN_SELECTION_LENGTH ≤ p.text.length)
    (hmax : p.text.length ≤ MAX_SELECTION_LENGTH)
    (hdup : isDuplicate p.text p.sourceUrl now s = false)
    (hcap : s.queue.length < MAX_QUEUE_SIZE)
    (hproc : s.nextId ∉ s.processing)
    (hok : responseOk r = true) :
    (handleSaveSnippet p now s).outcome = .accepted s.nextId ∧
    (handleSaveSnippet p now s).enqueued = some ⟨s.nextId, now, 0, none, .pending, p⟩ ∧
    (∀ q ∈ (processQueueItem ⟨s.nextId, now, 0, none, .pending, p⟩ (.resp r)
        (handleSaveSnippet p now s).state).queue, q.id ≠ s.nextId) ∧
    (processQueueItem ⟨s.nextId, now, 0, none, .pending, p⟩ (.resp r)
        (handleSaveSnippet p now s).state).broadcasts.countP
        (isSuccessBroadcastFor s.nextId)
      = s.broadcasts.countP (isSuccessBroadcastFor s.nextId) + 1 := by
  rw [handleSaveSnippet_valid p now s hmin hmax hdup hcap]
  refine ⟨rfl, rfl, ?_, ?_⟩
  · rw [processQueueItem_success _ r _ (by simpa using hproc) hok]
    intro q hq
    simp only [broadcastMessage_queue] at hq
    unfold dequeue at hq
    simp only [List.mem_filter] at hq
    simpa using hq.2
  · rw [processQueueItem_success _ r _ (by simpa using hproc) hok]
    simp [broadcastMessage, isSuccessBroadcastFor, List.countP_append]

/-- Witness for C1: the spec's scenario — submit the sample capture to a
fresh store, resolve the remote write with created id "s1". -/
theorem submit_then_success_removes_and_broadcasts_once_witness :
    (processQueueItem ⟨1, 0, 0, none, .pending, samplePayload⟩
        (.resp ⟨201, .noField, "s1"⟩)
        (handleSaveSnippet samplePayload 0 emptyState).state).broadcasts.countP
        (isSuccessBroadcastFor 1)
      = emptyState.broadcasts.countP (isSuccessBroadcastFor 1) + 1 :=
  (submit_then_success_removes_and_broadcasts_once samplePayload 0 emptyState
    ⟨201, .noField, "s1"⟩ (by decide) (by decide) (by decide) (by decide)
    (by decide) (by decide)).2.2.2

/-- Claim C2 (code divergence, evaluated at the failing input): a delivery
attempt answered with HTTP status 500 whose JSON body carries an `error`
field is classified as non-retryable — the thrown message is the body text,
which contains neither "HTTP 5" nor "network" — so the fresh entry
(retryCount 0, within budget) transitions to `failed` immediately instead
of being retried, and no retry timer is scheduled. -/
theorem fiveHundred_with_error_body_marked_terminal :
    isRetryableError ⟨"Error", errMessageOfResponse ⟨500, .field "Internal failure", ""⟩⟩
      = false ∧
    (processQueueItem ⟨1, 0, 0, none, .pending, samplePayload⟩
        (.resp ⟨500, .field "Internal failure", ""⟩) freshItemState).queue.map
      (fun q => (q.status, q.retryCount)) = [(.failed, 0)] ∧
    (processQueueItem ⟨1, 0, 0, none, .pending, samplePayload⟩
        (.resp ⟨500, .field "Internal failure", ""⟩) freshItemState).timers = [] := by
  refine ⟨by decide, by decide, by decide⟩

/-- Claim C3: a retryable failure of an attempt within the retry budget
bumps the entry's retry count by one, returns its status to pending, and
schedules exactly one timer with delay `min(BASE * 2 ^ retryCount, MAX)`
computed from the attempt's retry count, broadcasting nothing; successive
delays are non-decreasing and capped at `MAX_RETRY_DELAY_MS`; and a remote
write that keeps answering 500 is retried `MAX_RETRIES` times with delays
1000, 2000, 4000 before the entry transitions to `failed`. -/
theorem retryable_failure_backoff_and_exhaustion
    (item : QueueItem) (fr : FetchResult) (e : JsError) (s : SystemState)
    (hproc : item.id ∉ s.processing)
    (he : thrownError fr = some e)
    (hretry : isRetryableError e = true)
    (hbudget : item.retryCount < MAX_RETRIES) :
    ((processQueueItem item fr s).queue
        = s.queue.map (fun q =>
            if q.id = item.id then
              { q with status := .pending, lastError := some e.message,
                       retryCount := q.retryCount + 1 }
            else q) ∧
      (processQueueItem item fr s).timers
        = s.timers ++ [(retryDelay item.retryCount, item.id)] ∧
      (processQueueItem item fr s).broadcasts = s.broadcasts) ∧
    retryDelay item.retryCount
      = min (INITIAL_RETRY_DELAY_MS * 2 ^ item.retryCount) MAX_RETRY_DELAY_MS ∧
    (∀ a b : Nat, a ≤ b → retryDelay a ≤ retryDelay b) ∧
    (∀ a : Nat, retryDelay a ≤ MAX_RETRY_DELAY_MS) ∧
    (c3s5.timers.map (fun t => t.1) = [1000, 2000, 4000] ∧
     c3s5.queue.map (fun q => (q.status, q.retryCount)) = [(.failed, 3)] ∧
     c3s5.attemptLog.length = 1 + MAX_RETRIES ∧
     c3s5.broadcasts.countP (isResultBroadcastFor 1) = 1) := by
  refine ⟨?_, rfl, ?_, ?_, by decide, by decide, by decide, by decide⟩
  · rw [processQueueItem_retryable item fr e s hproc he ⟨hbudget, hretry⟩]
    have hq : (updateItemStatus item.id .pending (some e.message)
        (updateItemStatus item.id .saving none
          { s with processing := item.id :: s.processing,
                   attemptLog := s.attemptLog ++ [item.id] })).queue
        = s.queue.map (fun q =>
            if q.id = item.id then
              { q with status := .pending, lastError := some e.message,
                       retryCount := q.retryCount + 1 }
            else q) := by
      rw [queue_saving_then_pending]
    refine ⟨by simpa using hq, by simp, by simp⟩
  · intro a b hab
    unfold retryDelay
    exact min_le_min
      (Nat.mul_le_mul_left _ (Nat.pow_le_pow_right (by norm_num) hab)) le_rfl
  · intro a
    unfold retryDelay
    exact min_le_right _ _

/-- Witness for C3: the first 500 on a fresh entry schedules the 1000ms
backoff timer. -/
theorem retryable_failure_backoff_and_exhaustion_witness :
    (processQueueItem ⟨1, 0, 0, none, .pending, samplePayload⟩ resp500
        freshItemState).timers = freshItemState.timers ++ [(1000, 1)] :=
  (retryable_failure_backoff_and_exhaustion
    ⟨1, 0, 0, none, .pending, samplePayload⟩ resp500 ⟨"Error", "HTTP 500"⟩
    freshItemState (by decide) (by decide) (by decide) (by decide)).1.2.1

/-- Claim C4: when delivery fails non-retryably, or the retry budget is
exhausted, the entry stays in the store with status `failed` (ids of the
persisted queue are unchanged, retry count untouched), exactly one failure
`SAVE_RESULT` broadcast is published for it, and no retry timer is
scheduled — the terminal outcome is not silently dropped. -/
theorem terminal_failure_marks_failed_and_broadcasts
    (item : QueueItem) (fr : FetchResult) (e : JsError) (s : SystemState)
    (hproc : item.id ∉ s.processing)
    (he : thrownError fr = some e)
    (hterm : isRetryableError e = false ∨ MAX_RETRIES ≤ item.retryCount) :
    (processQueueItem item fr s).queue
        = s.queue.map (fun q =>
            if q.id = item.id then { q with status := .failed, lastError := some e.message }
            else q) ∧
    (processQueueItem item fr s).queue.map (fun q => q.id) = s.queue.map (fun q => q.id) ∧
    (processQueueItem item fr s).broadcasts.countP (isResultBroadcastFor item.id)
        = s.broadcasts.countP (isResultBroadcastFor item.id) + 1 ∧
    (processQueueItem item fr s).timers = s.timers := by
  have hterm' : ¬ (item.retryCount < MAX_RETRIES ∧ isRetryableError e = true) := by
    rcases hterm with h | h
    · rintro ⟨_, h2⟩
      rw [h] at h2
      exact Bool.false_ne_true h2
    · rintro ⟨h1, _⟩
      omega
  rw [processQueueItem_terminal item fr e s hproc he hterm']
  have hq : (updateItemStatus item.id .failed (some e.message)
      (updateItemStatus item.id .saving none
        { s with processing := item.id :: s.processing,
                 attemptLog := s.attemptLog ++ [item.id] })).queue
      = s.queue.map (fun q =>
          if q.id = item.id then { q with status := .failed, lastError := some e.message }
          else q) := by
    rw [queue_saving_then_failed]
  refine ⟨?_, ?_, ?_, ?_⟩
  · simpa using hq
  · show (updateItemStatus item.id .failed (some e.message)
        (updateItemStatus item.id .saving none _)).queue.map (fun q => q.id) = _
    rw [hq, List.map_map]
    apply List.map_congr_left
    intro q _
    by_cases hqid : q.id = item.id <;> simp [hqid]
  · simp [broadcastMessage, isResultBroadcastFor, List.countP_append]
  · simp

/-- Witness for C4: a 404 on a fresh entry publishes its failure result. -/
theorem terminal_failure_marks_failed_and_broadcasts_witness :
    (processQueueItem ⟨1, 0, 0, none, .pending, samplePayload⟩ resp404
        freshItemState).broadcasts.countP (isResultBroadcastFor 1)
      = freshItemState.broadcasts.countP (isResultBroadcastFor 1) + 1 :=
  (terminal_failure_marks_failed_and_broadcasts
    ⟨1, 0, 0, none, .pending, samplePayload⟩ resp404 ⟨"Error", "HTTP 404"⟩
    freshItemState (by decide) (by decide) (.inl (by decide))).2.2.1

/-- Claim C5: a capture whose text is shorter than the minimum length or
longer than the maximum length is rejected synchronously with an error,
nothing is enqueued, and the state (hence the store's entry count) is
unchanged. -/
theorem invalid_length_rejected_store_unchanged (p : Payload) (now : Nat)
    (s : SystemState)
    (h : p.text.length < MIN_SELECTION_LENGTH ∨ MAX_SELECTION_LENGTH < p.text.length) :
    (∃ msg, (handleSaveSnippet p now s).outcome = .rejected msg) ∧
    (handleSaveSnippet p now s).enqueued = none ∧
    (handleSaveSnippet p now s).state = s ∧
    (handleSaveSnippet p now s).state.queue.length = s.queue.length := by
  unfold handleSaveSnippet
  rcases h with h | h
  · rw [if_pos h]
    exact ⟨⟨_, rfl⟩, rfl, rfl, rfl⟩
  · have hnot : ¬ p.text.length < MIN_SELECTION_LENGTH := by
      unfold MIN_SELECTION_LENGTH
      unfold MAX_SELECTION_LENGTH at h
      omega
    rw [if_neg hnot, if_pos h]
    exact ⟨⟨_, rfl⟩, rfl, rfl, rfl⟩

/-- Witness for C5 at a 3-character capture. -/
theorem invalid_length_rejected_store_unchanged_witness :
    (handleSaveSnippet ⟨"abc", "https://example.com/a", "", "", none⟩ 0 emptyState).state
      = emptyState :=
  (invalid_length_rejected_store_unchanged _ 0 emptyState (.inl (by decide))).2.2.1

/-- Claim C6: no two delivery attempts for the same entry id run
concurrently — the worker keeps a set of in-flight ids and a trigger for an
id already in that set is skipped without starting a new attempt: the state
is returned unchanged, in particular no attempt is logged. -/
theorem inflight_id_trigger_skipped (item : QueueItem) (fr : FetchResult)
    (s : SystemState) (h : item.id ∈ s.processing) :
    processQueueItem item fr s = s ∧
    (processQueueItem item fr s).attemptLog = s.attemptLog := by
  have hs := processQueueItem_skip item fr s h
  exact ⟨hs, by rw [hs]⟩

/-- Witness for C6 at a concrete in-flight state. -/
theorem inflight_id_trigger_skipped_witness :
    processQueueItem ⟨1, 0, 0, none, .pending, samplePayload⟩ resp500
        { emptyState with processing := [1] }
      = { emptyState with processing := [1] } :=
  (inflight_id_trigger_skipped _ resp500 _ (by decide)).1

/-- Claim C7: discarding an entry removes it from the store, and a retry
timer that later fires for that id is suppressed: the timer callback checks
the current queue, so it does nothing when the entry has been removed, and
likewise does nothing when the entry is in the in-flight `saving` state
rather than pending or failed — a cancelled entry is never re-delivered. -/
theorem cancel_removes_and_suppresses_timer (id : Nat) (fr : FetchResult)
    (s : SystemState) :
    (∀ q ∈ (dequeue id s).queue, q.id ≠ id) ∧
    retryQueueItem id fr (dequeue id s) = dequeue id s ∧
    (∀ item, s.queue.find? (fun q => decide (q.id = id)) = some item →
      item.status = .saving → retryQueueItem id fr s = s) := by
  refine ⟨?_, ?_, ?_⟩
  · intro q hq
    have := List.of_mem_filter hq
    simpa using this
  · unfold retryQueueItem
    have hfind : (dequeue id s).queue.find? (fun q => decide (q.id = id)) = none := by
      apply List.find?_eq_none.mpr
      intro q hq
      have := List.of_mem_filter hq
      simpa using this
    rw [hfind]
  · intro item hfind hst
    unfold retryQueueItem
    rw [hfind]
    simp [hst]

/-- Witness for C7: cancelling the only failed entry of a one-entry store
suppresses the subsequent timer callback. -/
theorem cancel_removes_and_suppresses_timer_witness :
    retryQueueItem 1 resp500
        (dequeue 1 { emptyState with
          queue := [⟨1, 0, 3, some "HTTP 500", .failed, samplePayload⟩] })
      = dequeue 1 { emptyState with
          queue := [⟨1, 0, 3, some "HTTP 500", .failed, samplePayload⟩] } :=
  (cancel_removes_and_suppresses_timer 1 resp500 _).2.1

/-- Claim C8: when the store already holds `MAX_QUEUE_SIZE` entries,
`enqueue` fails with `CapacityExceeded`; a valid capture submitted over a
full store surfaces that error through the save handler, does not enter
the queue, and evicts no existing entry (the persisted queue is exactly
unchanged). -/
theorem enqueue_at_capacity_fails (p : Payload) (now : Nat) (s : SystemState)
    (hcap : MAX_QUEUE_SIZE ≤ s.queue.length) :
    enqueue p now s = .error "CapacityExceeded" ∧
    (MIN_SELECTION_LENGTH ≤ p.text.length → p.text.length ≤ MAX_SELECTION_LENGTH →
      isDuplicate p.text p.sourceUrl now s = false →
      (handleSaveSnippet p now s).outcome = .thrown "CapacityExceeded" ∧
      (handleSaveSnippet p now s).enqueued = none ∧
      (handleSaveSnippet p now s).state.queue = s.queue) := by
  constructor
  · unfold enqueue
    rw [if_pos hcap]
  · intro hmin hmax hdup
    unfold handleSaveSnippet
    rw [if_neg (by omega), if_neg (by omega), if_neg (by simp [hdup])]
    have hcap2 : enqueue p now (recordRecent p.text p.sourceUrl now s)
        = .error "CapacityExceeded" := by
      unfold enqueue recordRecent
      rw [if_pos (by simpa using hcap)]
    simp only [hcap2]
    exact ⟨trivial, trivial, rfl⟩

/-- Witness for C8 over the full store. -/
theorem enqueue_at_capacity_fails_witness :
    enqueue samplePayload 0 fullState = .error "CapacityExceeded" ∧
    (handleSaveSnippet samplePayload 0 fullState).state.queue = fullState.queue :=
  ⟨(enqueue_at_capacity_fails samplePayload 0 fullState (by decide)).1,
   ((enqueue_at_capacity_fails samplePayload 0 fullState (by decide)).2
     (by decide) (by decide) (by decide)).2.2⟩

/-- Claim C9: on startup, the recovery pass triggers exactly one delivery
attempt for each entry left pending or failed, in insertion order (and with
distinct store ids no entry is attempted twice), each attempt preceded by a
500ms stagger. -/
theorem startup_retries_each_pending_once (f : Nat → FetchResult)
    (s : SystemState) (hproc : s.processing = [])
    (hids : (s.queue.map (fun q => q.id)).Nodup) :
    (processPendingOnStartup f s).attemptLog
        = s.attemptLog ++ (getPendingItems s).map (fun q => q.id) ∧
    ((getPendingItems s).map (fun q => q.id)).Nodup ∧
    (processPendingOnStartup f s).waits
        = s.waits ++ List.replicate (getPendingItems s).length 500 := by
  obtain ⟨ha, hw, _⟩ := startupLoop_trace f (getPendingItems s) s hproc
  refine ⟨ha, ?_, hw⟩
  have hsub : List.Sublist ((getPendingItems s).map (fun q => q.id))
      (s.queue.map (fun q => q.id)) := by
    unfold getPendingItems
    exact List.Sublist.map _ (List.filter_sublist _)
  exact hids.sublist hsub

/-- Witness for C9: recovering the two-entry store attempts ids 1 then 2. -/
theorem startup_retries_each_pending_once_witness :
    (processPendingOnStartup (fun _ => resp500) c9state).attemptLog = [1, 2] := by
  have h := (startup_retries_each_pending_once (fun _ => resp500) c9state
    (by decide) (by decide)).1
  rw [h]
  decide

/-- Claim C10: for every queue, the state summary has `pendingCount` equal
to the number of entries whose status is pending or saving, and
`recentSaves` equal to the last (at most) ten entries in insertion order —
equivalently the reversal of the first ten of the reversed queue — each
rendered with its text truncated to the first 100 characters, its source
domain, and a saving status reported as pending. -/
theorem sync_state_summary_shape (queue : List QueueItem) :
    (handleSyncState queue).pendingCount
        = queue.countP (fun q => decide (q.status = .pending ∨ q.status = .saving)) ∧
    (handleSyncState queue).recentSaves
        = ((queue.reverse.take 10).reverse).map (fun item =>
            { id := item.id
              text := item.payload.text.take 100
              sourceDomain := item.payload.sourceDomain
              status := if item.status = .saving then .pending else item.status }) ∧
    (handleSyncState queue).recentSaves.length = min 10 queue.length := by
  refine ⟨?_, ?_, ?_⟩
  · unfold handleSyncState
    simp [List.countP_eq_length_filter]
  · unfold handleSyncState
    rw [← List.rtake_eq_reverse_take_reverse]
    rfl
  · unfold handleSyncState
    simp
    omega

end Kola
